import Mathlib

/-!
Shallow embedding of src/src/lib/sed.c (sedcli library façade).

The file models:
  * the errno constants the façade returns locally (from errno.h);
  * the key container sed_key and its constructor sed_key_init;
  * the status-code table sed_errors and the translator sed_error_text;
  * the backend capability table struct opal_interface (nullable function
    pointers become Option-valued entries) and every façade operation,
    instrumented with the list of backend entries actually invoked;
  * the device-handle lifecycle sed_init / sed_deinit as an event trace
    over an explicit allocation result.

C machine types are mapped as: uint8_t / uint32_t / size_t become Nat
(with an explicit % 256 where uint8_t truncation matters), int status
codes become Int, char pointers become String, byte buffers become
List Nat, bool becomes Bool, nullable function pointers become Option.
-/

/-- errno.h constant: invalid argument. -/
def EINVAL : Int := 22

/-- errno.h constant: out of memory. -/
def ENOMEM : Int := 12

/-- errno.h constant: math result not representable / out of range. -/
def ERANGE : Int := 34

/-- errno.h constant: operation not supported. -/
def EOPNOTSUPP : Int := 95

/-- Modelled from the spec: SED_MAX_KEY_LEN is the fixed key-container
capacity defined in libsed.h, which is not under src/; the spec calls it
the "fixed maximum capacity" with usable length capacity minus one.  The
repository's header sets it to 32. -/
def SED_MAX_KEY_LEN : Nat := 32

/-- The key container struct sed_key from libsed.h: a byte buffer of
capacity SED_MAX_KEY_LEN and a recorded length.  The buffer is modelled
as the list of its bytes. -/
structure sed_key where
  key : List Nat
  len : Nat
deriving DecidableEq, Repr

/-- memcpy(dst, src, n) into the start of a buffer: the first n bytes
come from src, the rest of dst is untouched. -/
def memcpy_bytes (dst src : List Nat) (n : Nat) : List Nat :=
  src.take n ++ dst.drop n

/-- sed_key_init from sed.c lines 173-192.  key_len has C type uint8_t,
so the value is reduced mod 256 at the call boundary; src_len and
dest_len are the two uint8_t locals of the C code.  Returns the status
and the (possibly updated) destination container. -/
def sed_key_init (auth_key : sed_key) (key : List Nat) (key_len : Nat) :
    Int × sed_key :=
  let src_len := key_len % 256
  let dest_len := SED_MAX_KEY_LEN - 1
  if src_len = 0 then
    (-EINVAL, auth_key)
  else if src_len > dest_len then
    (-ERANGE, auth_key)
  else
    (0, { key := memcpy_bytes auth_key.key key src_len, len := src_len })

/-- The static status-description table sed_errors from sed.c
lines 118-138, verbatim. -/
def sed_errors : List String :=
  ["Success",
   "Not Authorized",
   "Unknown Error",
   "SP Busy",
   "SP Failed",
   "SP Disabled",
   "SP Frozen",
   "No Sessions Available",
   "Uniqueness Conflict",
   "Insufficient Space",
   "Insufficient Rows",
   "Invalid Function",
   "Invalid Parameter",
   "Invalid Reference",
   "Unknown Error",
   "TPER Malfunction",
   "Transaction Failure",
   "Response Overflow",
   "Authority Locked Out"]

/-- sed_error_text from sed.c lines 308-320.  A NULL return (no
description) is modelled as none. -/
def sed_error_text (sed_status : Int) : Option String :=
  if sed_status = 0x3F then
    some "Failed\n"
  else if sed_status ≥ (sed_errors.length : Int) ∨ sed_status < 0 then
    none
  else
    some (sed_errors.getD sed_status.toNat "")

/-- An opaque device handle (the struct sed_device pointer a façade
operation receives and forwards untouched). -/
abbrev Dev := Nat

/-- Modelled from the spec: enum SED_LOCK_TYPE lives in libsed.h, which
is not under src/; the façade only forwards it, so it is kept as an
opaque integer. -/
abbrev SED_LOCK_TYPE := Nat

/-- Names of the backend capability-table entries, used to record which
backend entry a façade call invoked. -/
inductive OpName
  | init
  | ownership
  | revert
  | activatelsp
  | setup_global_range
  | addusr_to_lr
  | activate_usr
  | setuplr
  | lock_unlock
  | set_pwd
  | shadow_mbr
  | eraselr
  | ds_add_anybody_get
  | ds_admin_write
  | ds_admin_read
  | ds_anybody_read
  | ds_anybody_write
  | list_lr
  | deinit
deriving DecidableEq, Repr

/-- The backend capability table struct opal_interface from sed.c
lines 46-66.  Each C function pointer may be NULL, hence each entry is
an Option; the function types follow the typedefs of sed.c
lines 19-44. -/
structure opal_interface where
  init_fn : Option (Dev → String → Int)
  ownership_fn : Option (Dev → sed_key → Int)
  revert_fn : Option (Dev → sed_key → Bool → Int)
  activatelsp_fn : Option (Dev → sed_key → Option String → Bool → Int)
  setup_global_range_fn : Option (Dev → sed_key → Int)
  addusr_to_lr_fn : Option (Dev → String → Nat → String → SED_LOCK_TYPE → Nat → Int)
  activate_usr_fn : Option (Dev → String → Nat → String → Int)
  setuplr_fn : Option (Dev → String → Nat → String → Nat → Nat → Nat → Bool → Bool → Bool → Int)
  lock_unlock_fn : Option (Dev → sed_key → SED_LOCK_TYPE → Int)
  set_pwd_fn : Option (Dev → sed_key → sed_key → Int)
  shadow_mbr_fn : Option (Dev → String → Nat → Bool → Int)
  eraselr_fn : Option (Dev → String → Nat → String → Nat → Bool → Int)
  ds_add_anybody_get_fn : Option (Dev → String → Nat → Int)
  ds_admin_write_fn : Option (Dev → String → Nat → List Nat → Nat → Nat → Int)
  ds_admin_read_fn : Option (Dev → String → Nat → List Nat → Nat → Nat → Int)
  ds_anybody_read_fn : Option (Dev → List Nat → Nat → Nat → Int)
  ds_anybody_write_fn : Option (Dev → List Nat → Nat → Nat → Int)
  list_lr_fn : Option (Dev → String → Nat → Int)
  deinit_fn : Option (Dev → Unit)

/-- Result of one façade call: the returned status (none models the
undefined behaviour of calling a NULL entry with no presence check) and
the list of backend entries invoked, in order. -/
structure FacadeRes where
  ret : Option Int
  calls : List OpName
deriving DecidableEq, Repr

/-- The entries of a capability table that are absent (NULL), listed in
declaration order of struct opal_interface. -/
def absent_entries (i : opal_interface) : List OpName :=
  (if i.init_fn.isNone then [OpName.init] else []) ++
  (if i.ownership_fn.isNone then [OpName.ownership] else []) ++
  (if i.revert_fn.isNone then [OpName.revert] else []) ++
  (if i.activatelsp_fn.isNone then [OpName.activatelsp] else []) ++
  (if i.setup_global_range_fn.isNone then [OpName.setup_global_range] else []) ++
  (if i.addusr_to_lr_fn.isNone then [OpName.addusr_to_lr] else []) ++
  (if i.activate_usr_fn.isNone then [OpName.activate_usr] else []) ++
  (if i.setuplr_fn.isNone then [OpName.setuplr] else []) ++
  (if i.lock_unlock_fn.isNone then [OpName.lock_unlock] else []) ++
  (if i.set_pwd_fn.isNone then [OpName.set_pwd] else []) ++
  (if i.shadow_mbr_fn.isNone then [OpName.shadow_mbr] else []) ++
  (if i.eraselr_fn.isNone then [OpName.eraselr] else []) ++
  (if i.ds_add_anybody_get_fn.isNone then [OpName.ds_add_anybody_get] else []) ++
  (if i.ds_admin_write_fn.isNone then [OpName.ds_admin_write] else []) ++
  (if i.ds_admin_read_fn.isNone then [OpName.ds_admin_read] else []) ++
  (if i.ds_anybody_read_fn.isNone then [OpName.ds_anybody_read] else []) ++
  (if i.ds_anybody_write_fn.isNone then [OpName.ds_anybody_write] else []) ++
  (if i.list_lr_fn.isNone then [OpName.list_lr] else []) ++
  (if i.deinit_fn.isNone then [OpName.deinit] else [])

/-- The CONFIG_OPAL_DRIVER capability table opal_if from sed.c
lines 70-90: the sedopal_* backend functions live outside src/, so they
are abstract parameters; the six entries the C initialiser sets to NULL
are none. -/
def opal_if_driver
    (sedopal_init : Dev → String → Int)
    (sedopal_takeownership : Dev → sed_key → Int)
    (sedopal_reverttper : Dev → sed_key → Bool → Int)
    (sedopal_activatelsp : Dev → sed_key → Option String → Bool → Int)
    (sedopal_setup_global_range : Dev → sed_key → Int)
    (sedopal_add_usr_to_lr : Dev → String → Nat → String → SED_LOCK_TYPE → Nat → Int)
    (sedopal_enable_user : Dev → String → Nat → String → Int)
    (sedopal_setuplr : Dev → String → Nat → String → Nat → Nat → Nat → Bool → Bool → Bool → Int)
    (sedopal_lock_unlock : Dev → sed_key → SED_LOCK_TYPE → Int)
    (sedopal_setpw : Dev → sed_key → sed_key → Int)
    (sedopal_shadowmbr : Dev → String → Nat → Bool → Int)
    (sedopal_erase_lr : Dev → String → Nat → String → Nat → Bool → Int)
    (sedopal_deinit : Dev → Unit) : opal_interface :=
  { init_fn := some sedopal_init
    ownership_fn := some sedopal_takeownership
    revert_fn := some sedopal_reverttper
    activatelsp_fn := some sedopal_activatelsp
    setup_global_range_fn := some sedopal_setup_global_range
    addusr_to_lr_fn := some sedopal_add_usr_to_lr
    activate_usr_fn := some sedopal_enable_user
    setuplr_fn := some sedopal_setuplr
    lock_unlock_fn := some sedopal_lock_unlock
    set_pwd_fn := some sedopal_setpw
    shadow_mbr_fn := some sedopal_shadowmbr
    eraselr_fn := some sedopal_erase_lr
    ds_add_anybody_get_fn := none
    ds_admin_write_fn := none
    ds_admin_read_fn := none
    ds_anybody_read_fn := none
    ds_anybody_write_fn := none
    list_lr_fn := none
    deinit_fn := some sedopal_deinit }

/-- The passthrough capability table opal_if from sed.c lines 93-113
(the build without CONFIG_OPAL_DRIVER): every entry is present; the
opal_*_pt backend functions live outside src/, so they are abstract
parameters. -/
def opal_if_pt
    (opal_init_pt : Dev → String → Int)
    (opal_takeownership_pt : Dev → sed_key → Int)
    (opal_reverttper_pt : Dev → sed_key → Bool → Int)
    (opal_activate_lsp_pt : Dev → sed_key → Option String → Bool → Int)
    (opal_setup_global_range_pt : Dev → sed_key → Int)
    (opal_add_usr_to_lr_pt : Dev → String → Nat → String → SED_LOCK_TYPE → Nat → Int)
    (opal_activate_usr_pt : Dev → String → Nat → String → Int)
    (opal_setuplr_pt : Dev → String → Nat → String → Nat → Nat → Nat → Bool → Bool → Bool → Int)
    (opal_lock_unlock_pt : Dev → sed_key → SED_LOCK_TYPE → Int)
    (opal_set_pwd_pt : Dev → sed_key → sed_key → Int)
    (opal_shadow_mbr_pt : Dev → String → Nat → Bool → Int)
    (opal_eraselr_pt : Dev → String → Nat → String → Nat → Bool → Int)
    (opal_ds_add_anybody_get : Dev → String → Nat → Int)
    (opal_ds_admin_write : Dev → String → Nat → List Nat → Nat → Nat → Int)
    (opal_ds_admin_read : Dev → String → Nat → List Nat → Nat → Nat → Int)
    (opal_ds_anybody_read : Dev → List Nat → Nat → Nat → Int)
    (opal_ds_anybody_write : Dev → List Nat → Nat → Nat → Int)
    (opal_list_lr_pt : Dev → String → Nat → Int)
    (opal_deinit_pt : Dev → Unit) : opal_interface :=
  { init_fn := some opal_init_pt
    ownership_fn := some opal_takeownership_pt
    revert_fn := some opal_reverttper_pt
    activatelsp_fn := some opal_activate_lsp_pt
    setup_global_range_fn := some opal_setup_global_range_pt
    addusr_to_lr_fn := some opal_add_usr_to_lr_pt
    activate_usr_fn := some opal_activate_usr_pt
    setuplr_fn := some opal_setuplr_pt
    lock_unlock_fn := some opal_lock_unlock_pt
    set_pwd_fn := some opal_set_pwd_pt
    shadow_mbr_fn := some opal_shadow_mbr_pt
    eraselr_fn := some opal_eraselr_pt
    ds_add_anybody_get_fn := some opal_ds_add_anybody_get
    ds_admin_write_fn := some opal_ds_admin_write
    ds_admin_read_fn := some opal_ds_admin_read
    ds_anybody_read_fn := some opal_ds_anybody_read
    ds_anybody_write_fn := some opal_ds_anybody_write
    list_lr_fn := some opal_list_lr_pt
    deinit_fn := some opal_deinit_pt }

/-- sed_takeownership from sed.c lines 194-197: unconditional dispatch
through ownership_fn (no presence check in the C). -/
def sed_takeownership (curr_if : opal_interface) (dev : Dev)
    (key : sed_key) : FacadeRes :=
  match curr_if.ownership_fn with
  | some f => ⟨some (f dev key), [OpName.ownership]⟩
  | none => ⟨none, []⟩

/-- sed_setup_global_range from sed.c lines 199-202. -/
def sed_setup_global_range (curr_if : opal_interface) (dev : Dev)
    (key : sed_key) : FacadeRes :=
  match curr_if.setup_global_range_fn with
  | some f => ⟨some (f dev key), [OpName.setup_global_range]⟩
  | none => ⟨none, []⟩

/-- sed_reverttper from sed.c lines 204-207. -/
def sed_reverttper (curr_if : opal_interface) (dev : Dev) (key : sed_key)
    (psid : Bool) : FacadeRes :=
  match curr_if.revert_fn with
  | some f => ⟨some (f dev key psid), [OpName.revert]⟩
  | none => ⟨none, []⟩

/-- sed_activatelsp from sed.c lines 209-212: forwards with the fixed
extra arguments NULL and false of the C call. -/
def sed_activatelsp (curr_if : opal_interface) (dev : Dev)
    (key : sed_key) : FacadeRes :=
  match curr_if.activatelsp_fn with
  | some f => ⟨some (f dev key none false), [OpName.activatelsp]⟩
  | none => ⟨none, []⟩

/-- sed_lock_unlock from sed.c lines 214-218. -/
def sed_lock_unlock (curr_if : opal_interface) (dev : Dev) (key : sed_key)
    (lock_type : SED_LOCK_TYPE) : FacadeRes :=
  match curr_if.lock_unlock_fn with
  | some f => ⟨some (f dev key lock_type), [OpName.lock_unlock]⟩
  | none => ⟨none, []⟩

/-- sed_addusertolr from sed.c lines 220-224. -/
def sed_addusertolr (curr_if : opal_interface) (dev : Dev) (pass : String)
    (key_len : Nat) (user : String) (lock_type : SED_LOCK_TYPE)
    (lr : Nat) : FacadeRes :=
  match curr_if.addusr_to_lr_fn with
  | some f => ⟨some (f dev pass key_len user lock_type lr), [OpName.addusr_to_lr]⟩
  | none => ⟨none, []⟩

/-- sed_enableuser from sed.c lines 226-230. -/
def sed_enableuser (curr_if : opal_interface) (dev : Dev) (pass : String)
    (key_len : Nat) (user : String) : FacadeRes :=
  match curr_if.activate_usr_fn with
  | some f => ⟨some (f dev pass key_len user), [OpName.activate_usr]⟩
  | none => ⟨none, []⟩

/-- sed_setuplr from sed.c lines 232-238. -/
def sed_setuplr (curr_if : opal_interface) (dev : Dev) (pass : String)
    (key_len : Nat) (user : String) (lr : Nat) (range_start : Nat)
    (range_length : Nat) (sum RLE WLE : Bool) : FacadeRes :=
  match curr_if.setuplr_fn with
  | some f =>
      ⟨some (f dev pass key_len user lr range_start range_length sum RLE WLE),
       [OpName.setuplr]⟩
  | none => ⟨none, []⟩

/-- sed_setpw from sed.c lines 240-244. -/
def sed_setpw (curr_if : opal_interface) (dev : Dev)
    (old_key new_key : sed_key) : FacadeRes :=
  match curr_if.set_pwd_fn with
  | some f => ⟨some (f dev old_key new_key), [OpName.set_pwd]⟩
  | none => ⟨none, []⟩

/-- sed_shadowmbr from sed.c lines 246-250. -/
def sed_shadowmbr (curr_if : opal_interface) (dev : Dev) (pass : String)
    (key_len : Nat) (mbr : Bool) : FacadeRes :=
  match curr_if.shadow_mbr_fn with
  | some f => ⟨some (f dev pass key_len mbr), [OpName.shadow_mbr]⟩
  | none => ⟨none, []⟩

/-- sed_eraselr from sed.c lines 252-256. -/
def sed_eraselr (curr_if : opal_interface) (dev : Dev) (password : String)
    (key_len : Nat) (user : String) (lr : Nat) (sum : Bool) : FacadeRes :=
  match curr_if.eraselr_fn with
  | some f => ⟨some (f dev password key_len user lr sum), [OpName.eraselr]⟩
  | none => ⟨none, []⟩

/-- sed_ds_admin_write from sed.c lines 258-265: explicit NULL check
returning -EOPNOTSUPP before dispatch. -/
def sed_ds_admin_write (curr_if : opal_interface) (dev : Dev) (key : String)
    (key_len : Nat) (from_buf : List Nat) (size offset : Nat) : FacadeRes :=
  match curr_if.ds_admin_write_fn with
  | none => ⟨some (-EOPNOTSUPP), []⟩
  | some f => ⟨some (f dev key key_len from_buf size offset), [OpName.ds_admin_write]⟩

/-- sed_ds_admin_read from sed.c lines 267-274: explicit NULL check
returning -EOPNOTSUPP before dispatch. -/
def sed_ds_admin_read (curr_if : opal_interface) (dev : Dev) (key : String)
    (key_len : Nat) (to_buf : List Nat) (size offset : Nat) : FacadeRes :=
  match curr_if.ds_admin_read_fn with
  | none => ⟨some (-EOPNOTSUPP), []⟩
  | some f => ⟨some (f dev key key_len to_buf size offset), [OpName.ds_admin_read]⟩

/-- sed_ds_anybody_read from sed.c lines 276-282: explicit NULL check
returning -EOPNOTSUPP before dispatch. -/
def sed_ds_anybody_read (curr_if : opal_interface) (dev : Dev)
    (to_buf : List Nat) (size offset : Nat) : FacadeRes :=
  match curr_if.ds_anybody_read_fn with
  | none => ⟨some (-EOPNOTSUPP), []⟩
  | some f => ⟨some (f dev to_buf size offset), [OpName.ds_anybody_read]⟩

/-- sed_ds_anybody_write from sed.c lines 284-290: explicit NULL check
returning -EOPNOTSUPP before dispatch. -/
def sed_ds_anybody_write (curr_if : opal_interface) (dev : Dev)
    (from_buf : List Nat) (size offset : Nat) : FacadeRes :=
  match curr_if.ds_anybody_write_fn with
  | none => ⟨some (-EOPNOTSUPP), []⟩
  | some f => ⟨some (f dev from_buf size offset), [OpName.ds_anybody_write]⟩

/-- sed_ds_add_anybody_get from sed.c lines 292-298: explicit NULL check
returning -EOPNOTSUPP before dispatch. -/
def sed_ds_add_anybody_get (curr_if : opal_interface) (dev : Dev)
    (key : String) (key_len : Nat) : FacadeRes :=
  match curr_if.ds_add_anybody_get_fn with
  | none => ⟨some (-EOPNOTSUPP), []⟩
  | some f => ⟨some (f dev key key_len), [OpName.ds_add_anybody_get]⟩

/-- sed_list_lr from sed.c lines 300-306: explicit NULL check returning
-EOPNOTSUPP before dispatch. -/
def sed_list_lr (curr_if : opal_interface) (dev : Dev) (key : String)
    (key_len : Nat) : FacadeRes :=
  match curr_if.list_lr_fn with
  | none => ⟨some (-EOPNOTSUPP), []⟩
  | some f => ⟨some (f dev key key_len), [OpName.list_lr]⟩

/-- The in-memory contents of a struct sed_device allocation, modelled
as the list of its bytes (the struct is opaque to the façade). -/
abbrev DevState := List Nat

/-- Events of the device-handle lifecycle, in the order they happen:
a backend init call, a backend deinit call, the memset of the whole
handle to zero, and the free of the handle (carrying the bytes the
allocation holds at the moment it is released). -/
inductive LifeEv
  | backend_init
  | backend_deinit
  | memset_zero
  | free_mem (bytes : List Nat)
deriving DecidableEq, Repr

/-- memset(dev, 0, sizeof(star dev)): every byte of the allocation
becomes zero. -/
def memset_zero_all (d : DevState) : DevState :=
  d.map (fun _ => 0)

/-- sed_deinit from sed.c lines 162-171, as the event trace it produces.
The handle pointer is Option DevState (none is NULL); the backend deinit
entry of the active capability table is passed explicitly as the
state-transforming function deinit_fn (its C return type is void, it can
only mutate the device state).  A NULL handle produces no events;
otherwise the backend deinit runs, then the whole allocation is zeroed,
then it is freed. -/
def sed_deinit (deinit_fn : DevState → DevState)
    (dev : Option DevState) : List LifeEv :=
  match dev with
  | none => []
  | some d =>
      let d1 := deinit_fn d
      let d2 := memset_zero_all d1
      [LifeEv.backend_deinit, LifeEv.memset_zero, LifeEv.free_mem d2]

/-- What sed_init hands back: the returned status, the value written
through the caller's output pointer (none when the pointer is never
written), and the lifecycle events in order. -/
structure InitOut where
  status : Int
  dev_out : Option DevState
  events : List LifeEv
deriving DecidableEq, Repr

/-- sed_init from sed.c lines 140-160.  malloc is modelled by its
result alloc (none is allocation failure; some ret is the fresh,
uninitialised allocation); the backend init entry of the active
capability table is passed explicitly as init_fn, returning the status
and the device state it leaves behind.  On malloc failure the function
returns -ENOMEM with no backend call; on a non-zero backend status it
tears the allocation down through sed_deinit and returns that status;
only on status 0 is the output pointer written. -/
def sed_init (alloc : Option DevState)
    (init_fn : DevState → String → Int × DevState)
    (deinit_fn : DevState → DevState) (dev_path : String) : InitOut :=
  match alloc with
  | none => ⟨-ENOMEM, none, []⟩
  | some ret =>
      let r := init_fn ret dev_path
      if r.1 ≠ 0 then
        ⟨r.1, none, LifeEv.backend_init :: sed_deinit deinit_fn (some r.2)⟩
      else
        ⟨r.1, some r.2, [LifeEv.backend_init]⟩

/-- Claim C4: for every source byte sequence and every length with
1 ≤ length ≤ SED_MAX_KEY_LEN - 1 (the source holding at least that many
bytes), sed_key_init returns 0, the stored length equals the input
length, and the stored bytes equal the first length input bytes, with no
truncation, padding or other transformation. -/
theorem sed_key_init_success (k : sed_key) (key : List Nat) (n : Nat)
    (h1 : 1 ≤ n) (h2 : n ≤ SED_MAX_KEY_LEN - 1) (h3 : n ≤ key.length) :
    sed_key_init k key n = (0, ⟨key.take n ++ k.key.drop n, n⟩) ∧
    ((sed_key_init k key n).2.key.take n = key.take n) ∧
    (sed_key_init k key n).2.len = n := by
  simp only [SED_MAX_KEY_LEN] at h2
  have hn : n % 256 = n := Nat.mod_eq_of_lt (by omega)
  have hmain : sed_key_init k key n = (0, ⟨key.take n ++ k.key.drop n, n⟩) := by
    simp only [sed_key_init, memcpy_bytes, hn, SED_MAX_KEY_LEN]
    rw [if_neg (by omega), if_neg (by omega)]
  refine ⟨hmain, ?_, ?_⟩
  · rw [hmain]
    have hlen : (key.take n).length = n := by
      rw [List.length_take]; omega
    exact List.take_left' hlen
  · rw [hmain]

/-- Witness for C4 at a concrete input: a 3-byte key copied into a
fresh container of capacity 32. -/
theorem sed_key_init_success_witness :
    (1 ≤ 3 ∧ 3 ≤ SED_MAX_KEY_LEN - 1 ∧ 3 ≤ [10, 20, 30, 40].length) ∧
    sed_key_init ⟨List.replicate 32 7, 0⟩ [10, 20, 30, 40] 3 =
      (0, ⟨[10, 20, 30] ++ (List.replicate 32 7).drop 3, 3⟩) := by
  refine ⟨⟨by decide, by decide, by decide⟩, ?_⟩
  exact (sed_key_init_success ⟨List.replicate 32 7, 0⟩ [10, 20, 30, 40] 3
    (by decide) (by decide) (by decide)).1

/-- Claim C5: sed_key_init fails with -EINVAL on a zero length and with
-ERANGE on a length above SED_MAX_KEY_LEN - 1 (lengths are uint8_t, so
they are taken mod 256), and both error codes are negative, hence
distinct from every value of the protocol status space {0..18, 0x3F}. -/
theorem sed_key_init_rejects_bad_length :
    (∀ (k : sed_key) (key : List Nat) (n : Nat), n % 256 = 0 →
       sed_key_init k key n = (-EINVAL, k)) ∧
    (∀ (k : sed_key) (key : List Nat) (n : Nat),
       SED_MAX_KEY_LEN - 1 < n % 256 →
       sed_key_init k key n = (-ERANGE, k)) ∧
    (∀ s : Int, ((0 ≤ s ∧ s ≤ 18) ∨ s = 63) → -EINVAL ≠ s ∧ -ERANGE ≠ s) := by
  refine ⟨?_, ?_, ?_⟩
  · intro k key n h
    simp [sed_key_init, h]
  · intro k key n h
    simp only [SED_MAX_KEY_LEN] at h
    simp only [sed_key_init, SED_MAX_KEY_LEN]
    rw [if_neg (by omega), if_pos (by omega)]
  · intro s hs
    simp only [EINVAL, ERANGE]
    rcases hs with ⟨hl, hr⟩ | he
    · constructor <;> omega
    · constructor <;> omega

/-- Witness for C5 at concrete inputs: length 0 gives -EINVAL, length 40
gives -ERANGE, and both are distinct from protocol status 1. -/
theorem sed_key_init_rejects_bad_length_witness :
    ((0 % 256 = 0) ∧
      sed_key_init ⟨List.replicate 32 7, 5⟩ [1, 2] 0 =
        (-EINVAL, ⟨List.replicate 32 7, 5⟩)) ∧
    ((SED_MAX_KEY_LEN - 1 < 40 % 256) ∧
      sed_key_init ⟨List.replicate 32 7, 5⟩ (List.replicate 40 9) 40 =
        (-ERANGE, ⟨List.replicate 32 7, 5⟩)) ∧
    (((0 ≤ (1 : Int) ∧ (1 : Int) ≤ 18) ∨ (1 : Int) = 63) ∧
      -EINVAL ≠ (1 : Int) ∧ -ERANGE ≠ (1 : Int)) := by
  refine ⟨⟨by decide, ?_⟩, ⟨by decide, ?_⟩, ⟨Or.inl (by decide), ?_⟩⟩
  · exact sed_key_init_rejects_bad_length.1 ⟨List.replicate 32 7, 5⟩ [1, 2] 0
      (by decide)
  · exact sed_key_init_rejects_bad_length.2.1 ⟨List.replicate 32 7, 5⟩
      (List.replicate 40 9) 40 (by decide)
  · exact sed_key_init_rejects_bad_length.2.2 1 (Or.inl (by decide))

/-- Claim C10: when sed_key_init fails (zero length or length above
SED_MAX_KEY_LEN - 1, mod 256), the destination key container is returned
entirely unmodified: neither its byte buffer nor its recorded length is
written. -/
theorem sed_key_init_error_preserves_dest (k : sed_key) (key : List Nat)
    (n : Nat) (h : n % 256 = 0 ∨ SED_MAX_KEY_LEN - 1 < n % 256) :
    (sed_key_init k key n).2 = k := by
  rcases h with h | h
  · rw [sed_key_init_rejects_bad_length.1 k key n h]
  · rw [sed_key_init_rejects_bad_length.2.1 k key n h]

/-- Claim C6: on every status code in {0..18}, sed_error_text returns
exactly the fixed string at that index of the status table sed_errors. -/
theorem sed_error_text_table_exact :
    sed_error_text 0 = some "Success" ∧
    sed_error_text 1 = some "Not Authorized" ∧
    sed_error_text 2 = some "Unknown Error" ∧
    sed_error_text 3 = some "SP Busy" ∧
    sed_error_text 4 = some "SP Failed" ∧
    sed_error_text 5 = some "SP Disabled" ∧
    sed_error_text 6 = some "SP Frozen" ∧
    sed_error_text 7 = some "No Sessions Available" ∧
    sed_error_text 8 = some "Uniqueness Conflict" ∧
    sed_error_text 9 = some "Insufficient Space" ∧
    sed_error_text 10 = some "Insufficient Rows" ∧
    sed_error_text 11 = some "Invalid Function" ∧
    sed_error_text 12 = some "Invalid Parameter" ∧
    sed_error_text 13 = some "Invalid Reference" ∧
    sed_error_text 14 = some "Unknown Error" ∧
    sed_error_text 15 = some "TPER Malfunction" ∧
    sed_error_text 16 = some "Transaction Failure" ∧
    sed_error_text 17 = some "Response Overflow" ∧
    sed_error_text 18 = some "Authority Locked Out" := by
  decide

/-- Claim C7, counterexample: at the sentinel 0x3F the translator does
not return the bare string "Failed" (the code returns a string with a
trailing newline). -/
theorem sed_error_text_failed_cex : sed_error_text 0x3F ≠ some "Failed" := by
  decide

/-- Claim C7 as amended: sed_error_text applied to the reserved
generic-failure sentinel 0x3F returns exactly the fixed string
"Failed\n", i.e. "Failed" followed by a newline character. -/
theorem sed_error_text_failed_sentinel :
    sed_error_text 0x3F = some "Failed\n" := by
  decide

/-- Claim C8: every status code that is negative, or above 18 and not
the 0x3F sentinel, has no description: sed_error_text returns none; in
particular at -1 and at 19. -/
theorem sed_error_text_unknown_none :
    (∀ s : Int, s < 0 ∨ (18 < s ∧ s ≠ 63) → sed_error_text s = none) ∧
    sed_error_text (-1) = none ∧ sed_error_text 19 = none := by
  refine ⟨?_, by decide, by decide⟩
  intro s h
  have h63 : s ≠ 63 := by
    rcases h with h | ⟨h1, h2⟩
    · omega
    · exact h2
  have hlen : ((sed_errors.length : Int)) = 19 := by decide
  simp only [sed_error_text, hlen]
  rw [if_neg h63, if_pos]
  rcases h with h | ⟨h1, _⟩
  · exact Or.inr h
  · exact Or.inl (by omega)

/-- Witness for C8 at the concrete status -5. -/
theorem sed_error_text_unknown_none_witness :
    ((-5 : Int) < 0 ∨ (18 < (-5 : Int) ∧ (-5 : Int) ≠ 63)) ∧
    sed_error_text (-5) = none := by
  refine ⟨Or.inl (by decide), ?_⟩
  exact sed_error_text_unknown_none.1 (-5) (Or.inl (by decide))

/-- Claim C1: every façade operation whose Capability Table entry is
absent returns exactly -EOPNOTSUPP, independent of the device handle and
all other arguments, and invokes no backend entry (empty call list).
The six operations below are exactly the ones with an absent entry in
either concrete table: the driver table's absent entries are those six
and the passthrough table has none absent (last two conjuncts). -/
theorem sed_absent_capability_unsupported :
    (∀ (i : opal_interface) (dev : Dev) (key : String) (key_len : Nat)
       (from_buf : List Nat) (size offset : Nat),
       sed_ds_admin_write { i with ds_admin_write_fn := none } dev key
         key_len from_buf size offset = ⟨some (-EOPNOTSUPP), []⟩) ∧
    (∀ (i : opal_interface) (dev : Dev) (key : String) (key_len : Nat)
       (to_buf : List Nat) (size offset : Nat),
       sed_ds_admin_read { i with ds_admin_read_fn := none } dev key
         key_len to_buf size offset = ⟨some (-EOPNOTSUPP), []⟩) ∧
    (∀ (i : opal_interface) (dev : Dev) (to_buf : List Nat)
       (size offset : Nat),
       sed_ds_anybody_read { i with ds_anybody_read_fn := none } dev
         to_buf size offset = ⟨some (-EOPNOTSUPP), []⟩) ∧
    (∀ (i : opal_interface) (dev : Dev) (from_buf : List Nat)
       (size offset : Nat),
       sed_ds_anybody_write { i with ds_anybody_write_fn := none } dev
         from_buf size offset = ⟨some (-EOPNOTSUPP), []⟩) ∧
    (∀ (i : opal_interface) (dev : Dev) (key : String) (key_len : Nat),
       sed_ds_add_anybody_get { i with ds_add_anybody_get_fn := none } dev
         key key_len = ⟨some (-EOPNOTSUPP), []⟩) ∧
    (∀ (i : opal_interface) (dev : Dev) (key : String) (key_len : Nat),
       sed_list_lr { i with list_lr_fn := none } dev key key_len =
         ⟨some (-EOPNOTSUPP), []⟩) ∧
    (∀ (f1 : Dev → String → Int) (f2 : Dev → sed_key → Int)
       (f3 : Dev → sed_key → Bool → Int)
       (f4 : Dev → sed_key → Option String → Bool → Int)
       (f5 : Dev → sed_key → Int)
       (f6 : Dev → String → Nat → String → SED_LOCK_TYPE → Nat → Int)
       (f7 : Dev → String → Nat → String → Int)
       (f8 : Dev → String → Nat → String → Nat → Nat → Nat → Bool → Bool → Bool → Int)
       (f9 : Dev → sed_key → SED_LOCK_TYPE → Int)
       (f10 : Dev → sed_key → sed_key → Int)
       (f11 : Dev → String → Nat → Bool → Int)
       (f12 : Dev → String → Nat → String → Nat → Bool → Int)
       (f13 : Dev → Unit),
       absent_entries
         (opal_if_driver f1 f2 f3 f4 f5 f6 f7 f8 f9 f10 f11 f12 f13) =
       [OpName.ds_add_anybody_get, OpName.ds_admin_write,
        OpName.ds_admin_read, OpName.ds_anybody_read,
        OpName.ds_anybody_write, OpName.list_lr]) ∧
    (∀ (g1 : Dev → String → Int) (g2 : Dev → sed_key → Int)
       (g3 : Dev → sed_key → Bool → Int)
       (g4 : Dev → sed_key → Option String → Bool → Int)
       (g5 : Dev → sed_key → Int)
       (g6 : Dev → String → Nat → String → SED_LOCK_TYPE → Nat → Int)
       (g7 : Dev → String → Nat → String → Int)
       (g8 : Dev → String → Nat → String → Nat → Nat → Nat → Bool → Bool → Bool → Int)
       (g9 : Dev → sed_key → SED_LOCK_TYPE → Int)
       (g10 : Dev → sed_key → sed_key → Int)
       (g11 : Dev → String → Nat → Bool → Int)
       (g12 : Dev → String → Nat → String → Nat → Bool → Int)
       (g13 : Dev → String → Nat → Int)
       (g14 : Dev → String → Nat → List Nat → Nat → Nat → Int)
       (g15 : Dev → String → Nat → List Nat → Nat → Nat → Int)
       (g16 : Dev → List Nat → Nat → Nat → Int)
       (g17 : Dev → List Nat → Nat → Nat → Int)
       (g18 : Dev → String → Nat → Int)
       (g19 : Dev → Unit),
       absent_entries
         (opal_if_pt g1 g2 g3 g4 g5 g6 g7 g8 g9 g10 g11 g12 g13 g14 g15
            g16 g17 g18 g19) = []) := by
  refine ⟨?_, ?_, ?_, ?_, ?_, ?_, ?_, ?_⟩ <;>
    · intros
      simp [sed_ds_admin_write, sed_ds_admin_read, sed_ds_anybody_read,
            sed_ds_anybody_write, sed_ds_add_anybody_get, sed_list_lr,
            absent_entries, opal_if_driver, opal_if_pt]

/-- Claim C9: every façade operation whose Capability Table entry is
present performs exactly one backend call (a single-element call list)
and returns that entry's result unchanged, the entry being applied to
the façade's own arguments (sed_activatelsp adds the fixed arguments
NULL and false of the C call site); no retry, no composition, no
reinterpretation of the status. -/
theorem sed_facade_forwards_present_entry :
    (∀ (i : opal_interface) (f : Dev → sed_key → Int) (dev : Dev)
       (key : sed_key),
       sed_takeownership { i with ownership_fn := some f } dev key =
         ⟨some (f dev key), [OpName.ownership]⟩) ∧
    (∀ (i : opal_interface) (f : Dev → sed_key → Int) (dev : Dev)
       (key : sed_key),
       sed_setup_global_range { i with setup_global_range_fn := some f }
         dev key = ⟨some (f dev key), [OpName.setup_global_range]⟩) ∧
    (∀ (i : opal_interface) (f : Dev → sed_key → Bool → Int) (dev : Dev)
       (key : sed_key) (psid : Bool),
       sed_reverttper { i with revert_fn := some f } dev key psid =
         ⟨some (f dev key psid), [OpName.revert]⟩) ∧
    (∀ (i : opal_interface) (f : Dev → sed_key → Option String → Bool → Int)
       (dev : Dev) (key : sed_key),
       sed_activatelsp { i with activatelsp_fn := some f } dev key =
         ⟨some (f dev key none false), [OpName.activatelsp]⟩) ∧
    (∀ (i : opal_interface) (f : Dev → sed_key → SED_LOCK_TYPE → Int)
       (dev : Dev) (key : sed_key) (lock_type : SED_LOCK_TYPE),
       sed_lock_unlock { i with lock_unlock_fn := some f } dev key
         lock_type = ⟨some (f dev key lock_type), [OpName.lock_unlock]⟩) ∧
    (∀ (i : opal_interface)
       (f : Dev → String → Nat → String → SED_LOCK_TYPE → Nat → Int)
       (dev : Dev) (pass : String) (key_len : Nat) (user : String)
       (lock_type : SED_LOCK_TYPE) (lr : Nat),
       sed_addusertolr { i with addusr_to_lr_fn := some f } dev pass
         key_len user lock_type lr =
         ⟨some (f dev pass key_len user lock_type lr), [OpName.addusr_to_lr]⟩) ∧
    (∀ (i : opal_interface) (f : Dev → String → Nat → String → Int)
       (dev : Dev) (pass : String) (key_len : Nat) (user : String),
       sed_enableuser { i with activate_usr_fn := some f } dev pass
         key_len user = ⟨some (f dev pass key_len user), [OpName.activate_usr]⟩) ∧
    (∀ (i : opal_interface)
       (f : Dev → String → Nat → String → Nat → Nat → Nat → Bool → Bool → Bool → Int)
       (dev : Dev) (pass : String) (key_len : Nat) (user : String)
       (lr range_start range_length : Nat) (sum RLE WLE : Bool),
       sed_setuplr { i with setuplr_fn := some f } dev pass key_len user
         lr range_start range_length sum RLE WLE =
         ⟨some (f dev pass key_len user lr range_start range_length sum RLE WLE),
          [OpName.setuplr]⟩) ∧
    (∀ (i : opal_interface) (f : Dev → sed_key → sed_key → Int)
       (dev : Dev) (old_key new_key : sed_key),
       sed_setpw { i with set_pwd_fn := some f } dev old_key new_key =
         ⟨some (f dev old_key new_key), [OpName.set_pwd]⟩) ∧
    (∀ (i : opal_interface) (f : Dev → String → Nat → Bool → Int)
       (dev : Dev) (pass : String) (key_len : Nat) (mbr : Bool),
       sed_shadowmbr { i with shadow_mbr_fn := some f } dev pass key_len
         mbr = ⟨some (f dev pass key_len mbr), [OpName.shadow_mbr]⟩) ∧
    (∀ (i : opal_interface) (f : Dev → String → Nat → String → Nat → Bool → Int)
       (dev : Dev) (password : String) (key_len : Nat) (user : String)
       (lr : Nat) (sum : Bool),
       sed_eraselr { i with eraselr_fn := some f } dev password key_len
         user lr sum = ⟨some (f dev password key_len user lr sum), [OpName.eraselr]⟩) ∧
    (∀ (i : opal_interface) (f : Dev → String → Nat → List Nat → Nat → Nat → Int)
       (dev : Dev) (key : String) (key_len : Nat) (from_buf : List Nat)
       (size offset : Nat),
       sed_ds_admin_write { i with ds_admin_write_fn := some f } dev key
         key_len from_buf size offset =
         ⟨some (f dev key key_len from_buf size offset), [OpName.ds_admin_write]⟩) ∧
    (∀ (i : opal_interface) (f : Dev → String → Nat → List Nat → Nat → Nat → Int)
       (dev : Dev) (key : String) (key_len : Nat) (to_buf : List Nat)
       (size offset : Nat),
       sed_ds_admin_read { i with ds_admin_read_fn := some f } dev key
         key_len to_buf size offset =
         ⟨some (f dev key key_len to_buf size offset), [OpName.ds_admin_read]⟩) ∧
    (∀ (i : opal_interface) (f : Dev → List Nat → Nat → Nat → Int)
       (dev : Dev) (to_buf : List Nat) (size offset : Nat),
       sed_ds_anybody_read { i with ds_anybody_read_fn := some f } dev
         to_buf size offset =
         ⟨some (f dev to_buf size offset), [OpName.ds_anybody_read]⟩) ∧
    (∀ (i : opal_interface) (f : Dev → List Nat → Nat → Nat → Int)
       (dev : Dev) (from_buf : List Nat) (size offset : Nat),
       sed_ds_anybody_write { i with ds_anybody_write_fn := some f } dev
         from_buf size offset =
         ⟨some (f dev from_buf size offset), [OpName.ds_anybody_write]⟩) ∧
    (∀ (i : opal_interface) (f : Dev → String → Nat → Int) (dev : Dev)
       (key : String) (key_len : Nat),
       sed_ds_add_anybody_get { i with ds_add_anybody_get_fn := some f }
         dev key key_len = ⟨some (f dev key key_len), [OpName.ds_add_anybody_get]⟩) ∧
    (∀ (i : opal_interface) (f : Dev → String → Nat → Int) (dev : Dev)
       (key : String) (key_len : Nat),
       sed_list_lr { i with list_lr_fn := some f } dev key key_len =
         ⟨some (f dev key key_len), [OpName.list_lr]⟩) := by
  refine ⟨?_, ?_, ?_, ?_, ?_, ?_, ?_, ?_, ?_, ?_, ?_, ?_, ?_, ?_, ?_, ?_, ?_⟩ <;>
    · intros
      simp [sed_takeownership, sed_setup_global_range, sed_reverttper,
            sed_activatelsp, sed_lock_unlock, sed_addusertolr,
            sed_enableuser, sed_setuplr, sed_setpw, sed_shadowmbr,
            sed_eraselr, sed_ds_admin_write, sed_ds_admin_read,
            sed_ds_anybody_read, sed_ds_anybody_write,
            sed_ds_add_anybody_get, sed_list_lr]

/-- Claim C3: sed_deinit on a NULL handle is a no-op (empty event
trace, no backend call, no state change); on a non-null handle it
produces exactly, and in exactly this order, the backend deinit call,
the zeroing of the handle's entire memory, and the release of the
memory — and the bytes released are all zero. -/
theorem sed_deinit_null_noop_and_zeroize :
    (∀ (deinit_fn : DevState → DevState), sed_deinit deinit_fn none = []) ∧
    (∀ (deinit_fn : DevState → DevState) (d : DevState),
       sed_deinit deinit_fn (some d) =
         [LifeEv.backend_deinit, LifeEv.memset_zero,
          LifeEv.free_mem (memset_zero_all (deinit_fn d))]) ∧
    (∀ (deinit_fn : DevState → DevState) (d : DevState),
       (memset_zero_all (deinit_fn d)).all (fun b => b == 0) = true) := by
  refine ⟨fun _ => rfl, fun _ _ => rfl, ?_⟩
  intro deinit_fn d
  simp [memset_zero_all, List.all_eq_true]

/-- Claim C2: sed_init on allocation failure returns -ENOMEM with no
backend call and no handle written; when the backend init entry returns
a non-zero status, sed_init runs the sed_deinit teardown on the fresh
allocation (backend deinit, zeroing, free), returns that backend status,
and never writes the caller's output pointer. -/
theorem sed_init_failure_safe :
    (∀ (init_fn : DevState → String → Int × DevState)
       (deinit_fn : DevState → DevState) (dev_path : String),
       sed_init none init_fn deinit_fn dev_path = ⟨-ENOMEM, none, []⟩) ∧
    (∀ (alloc : DevState) (init_fn : DevState → String → Int × DevState)
       (deinit_fn : DevState → DevState) (dev_path : String),
       (init_fn alloc dev_path).1 ≠ 0 →
       sed_init (some alloc) init_fn deinit_fn dev_path =
         ⟨(init_fn alloc dev_path).1, none,
          LifeEv.backend_init ::
            sed_deinit deinit_fn (some (init_fn alloc dev_path).2)⟩) := by
  refine ⟨fun _ _ _ => rfl, ?_⟩
  intro alloc init_fn deinit_fn dev_path h
  simp only [sed_init]
  rw [if_pos h]

/-- Witness for C2 at a concrete input: a backend init that returns
status 5 on the two-byte allocation [7, 7]; the teardown trace ends by
freeing all-zero memory. -/
theorem sed_init_failure_safe_witness :
    ((fun (d : DevState) (_ : String) => ((5 : Int), d)) [7, 7] "dev0").1 ≠ 0 ∧
    sed_init (some [7, 7]) (fun d _ => ((5 : Int), d)) (fun d => d) "dev0" =
      ⟨5, none,
       [LifeEv.backend_init, LifeEv.backend_deinit, LifeEv.memset_zero,
        LifeEv.free_mem [0, 0]]⟩ := by
  refine ⟨by decide, ?_⟩
  exact sed_init_failure_safe.2 [7, 7] (fun d _ => ((5 : Int), d))
    (fun d => d) "dev0" (by decide)

/-- Witness for C10 at a concrete input: a failing zero-length call
leaves the destination container untouched. -/
theorem sed_key_init_error_preserves_dest_witness :
    (0 % 256 = 0 ∨ SED_MAX_KEY_LEN - 1 < 0 % 256) ∧
    (sed_key_init ⟨[3, 4, 5], 9⟩ [1, 2] 0).2 = ⟨[3, 4, 5], 9⟩ := by
  refine ⟨Or.inl (by decide), ?_⟩
  exact sed_key_init_error_preserves_dest ⟨[3, 4, 5], 9⟩ [1, 2] 0
    (Or.inl (by decide))
